import Mathlib

/-!
LocationReact realtime-synchronization core: a shallow embedding.

Definitions below are translated from the TypeScript sources of the
repository (service-impl/MapConfigService.ts, service-impl/WebSocketService.ts,
service-impl/LocateResultService.ts, the per-map BeaconPositionService,
lib/service/StateBase.ts and views/maps-manager/MapsManager.tsx).
JavaScript numbers are modelled as rationals (ℚ); `Math.round` and
`Number.prototype.toFixed(2)` both round half toward +∞, which is Mathlib
`round`.  Fallible operations return `Except`/`Option`; methods that write
to the WebSocket return, next to the new state, the list of frames they
sent outward.
-/

/-- `round2 v` : rounding to two decimals as done by `Math.round(v*100)/100`
(MapsManager `round2`) and by `Number(v.toFixed(2))` on the values involved.
JS rounds ties toward +∞, i.e. `⌊x + 1/2⌋`; written with the executable
`Rat.floor` so that concrete instances evaluate. -/
def round2 (v : ℚ) : ℚ := ((v * 100 + 1 / 2).floor : ℤ) / 100

/-- The executable `Rat.floor` agrees with the `Int.floor` of the ℚ
floor-ring structure. -/
theorem rat_floor_eq_int_floor (q : ℚ) : (q.floor : ℤ) = ⌊q⌋ := by
  rw [Rat.floor_def, Rat.floor_def']

/-- `round2` is `Math.round(v*100)/100` with the mathematical `round`. -/
theorem round2_eq_round (v : ℚ) : round2 v = (round (v * 100) : ℤ) / 100 := by
  rw [round2, rat_floor_eq_int_floor, round_eq]

/-- The rounding error of `round2` is at most 1/200 (half of the last kept digit). -/
theorem abs_round2_sub_le (v : ℚ) : |round2 v - v| ≤ 1 / 200 := by
  have h := abs_sub_round (v * 100)
  rw [round2_eq_round]
  have : (round (v * 100) : ℚ) / 100 - v = ((round (v * 100) : ℚ) - v * 100) / 100 := by
    ring
  rw [this, abs_div]
  have h100 : |(100 : ℚ)| = 100 := by norm_num
  rw [h100]
  rw [div_le_div_iff₀ (by norm_num) (by norm_num)]
  rw [abs_sub_comm] at h
  linarith

/-- `round2` is idempotent: a value already on a 2-decimal grid is unchanged. -/
theorem round2_idem (v : ℚ) : round2 (round2 v) = round2 v := by
  rw [round2_eq_round, round2_eq_round]
  have : ((round (v * 100) : ℤ) : ℚ) / 100 * 100 = ((round (v * 100) : ℤ) : ℚ) := by
    ring
  rw [this, round_intCast]

/-- Evaluation rule for `round2` at a concrete value: if `n` brackets
`v·100 + 1/2` from below within one unit, the rounding yields `n/100`. -/
theorem round2_eval (v : ℚ) (n : ℤ) (h1 : (n : ℚ) ≤ v * 100 + 1 / 2)
    (h2 : v * 100 + 1 / 2 < n + 1) : round2 v = (n : ℚ) / 100 := by
  rw [round2, rat_floor_eq_int_floor, Int.floor_eq_iff.mpr ⟨h1, h2⟩]

/-- Outbound WebSocket commands emitted by the domain services
(the `cmd` frames passed to `wsService.send` / the bound `sendFn`). -/
inductive OutMsg where
  | setBeaconPosition (mapId mac : String) (x y : ℚ)
  | clearCurrentBeaconPosition (mapId mac : String)
  | clearAllBeaconPositions (mapId : String)
  | getBeaconPositions (mapId : String)
  | setDefaultBeaconPosition (mapId : String)
  | setMapScale (meter_to_pixel : ℚ)
  deriving DecidableEq, Repr

/-- One anchor coordinate record `{mac, x, y}` (service-api BeaconCoord). -/
structure BeaconCoord where
  mac : String
  x : ℚ
  y : ℚ
  deriving DecidableEq, Repr

/-- A parsed inbound frame (the result of `JSON.parse` as seen by the
`ingestFrame` methods).  `isObj` is false for non-object JSON values
(strings, numbers, null); property access on those yields `undefined`,
which the accessors below reproduce.  Each optional field is `some` exactly
when the corresponding JS field has the type the services test for:
`cmd`/`mapId`/`target_mac` when the field is a string, `items` when
`Array.isArray(msg.items)`, `meter_to_pixel` when
`typeof msg.meter_to_pixel === "number"`, `xNum`/`yNum` the finite numeric
coercion of `msg.x`/`msg.y` (`none` = non-finite), `rssiNum` the numeric
coercion of `msg.rssi ?? 0`, `anchorsArr` when `Array.isArray(msg.anchors)`.
`items` entries are `none` for null/mac-less entries (`!i?.mac` with a
missing field; an empty-string mac is a valid entry with falsy mac). -/
structure Frame where
  isObj : Bool
  cmd : Option String
  mapId : Option String
  items : Option (List (Option BeaconCoord))
  meter_to_pixel : Option ℚ
  target_mac : Option String
  xNum : Option ℚ
  yNum : Option ℚ
  rssiNum : Option ℚ
  devType : String
  anchorsArr : Option (List String)
  deriving DecidableEq, Repr

/-- A frame with no recognizable fields; used to build concrete frames. -/
def Frame.base : Frame :=
  ⟨true, none, none, none, none, none, none, none, none, "", none⟩

/-- `msg.cmd` as read by JS: `undefined` on non-object values. -/
def Frame.getCmd (f : Frame) : Option String :=
  if f.isObj then f.cmd else none

/-- `msg.mapId` as read by JS: `undefined` on non-object values. -/
def Frame.getMapId (f : Frame) : Option String :=
  if f.isObj then f.mapId else none

/-- `msg.items` as read by JS: `undefined` on non-object values. -/
def Frame.getItems (f : Frame) : Option (List (Option BeaconCoord)) :=
  if f.isObj then f.items else none

/-! ## MapConfigService (service-impl/MapConfigService.ts)

State is `{ meterToPixel }`; `sendFn` is the sender injected by
`WebSocketService.start` via `bindSender` — modelled by the flag `bound`
(`sendFn !== null`).  Methods return the new service state together with
the list of outbound frames handed to `sendFn`. -/

structure MapCfg where
  meterToPixel : ℚ
  bound : Bool
  deriving DecidableEq, Repr

/-- `normalize(v)`: null unless the number is finite and positive, else the
value fixed to two decimals.  ℚ values are always finite, so only the
positivity test remains. -/
def MapConfigService.normalize (v : ℚ) : Option ℚ :=
  if v ≤ 0 then none else some (round2 v)

/-- `setMeterToPixelLocal(value)`: update the local state and report whether
it changed (no network send). -/
def MapConfigService.setMeterToPixelLocal (s : MapCfg) (value : ℚ) : MapCfg × Bool :=
  if s.meterToPixel = value then (s, false)
  else ({ s with meterToPixel := value }, true)

/-- `sendToServer(meterToPixel)`: emit `{cmd:"SetMapScale", meter_to_pixel}`
through the bound sender, or nothing when no sender is bound. -/
def MapConfigService.sendToServer (s : MapCfg) (meterToPixel : ℚ) : List OutMsg :=
  if s.bound then [OutMsg.setMapScale meterToPixel] else []

/-- `setMeterToPixel(value)`: normalize, update locally, and if the value
changed, send it to the server. -/
def MapConfigService.setMeterToPixel (s : MapCfg) (value : ℚ) : MapCfg × List OutMsg :=
  match MapConfigService.normalize value with
  | none => (s, [])
  | some fixed =>
    let (s1, changed) := MapConfigService.setMeterToPixelLocal s fixed
    if changed then (s1, MapConfigService.sendToServer s1 fixed) else (s1, [])

/-- `ingestFrame(msg)`: consume `{cmd:"MapScale", meter_to_pixel:number}`;
remote-origin updates apply locally only (no re-emit).  Returns
(new state, handled flag, outbound sends). -/
def MapConfigService.ingestFrame (s : MapCfg) (f : Frame) : MapCfg × Bool × List OutMsg :=
  if ¬ f.isObj then (s, false, [])
  else
    match f.cmd, f.meter_to_pixel with
    | some "MapScale", some v =>
      match MapConfigService.normalize v with
      | none => (s, true, [])
      | some fixed => ((MapConfigService.setMeterToPixelLocal s fixed).1, true, [])
    | _, _ => (s, false, [])

/-- `subscribe(listener)`: add the listener to the set, immediately invoke it
once with the current state, and return an unsubscribe function.  Listeners
are identified by a token; the second component is the list of snapshots the
listener is synchronously invoked with before `subscribe` returns. -/
def MapConfigService.subscribe (listeners : List ℕ) (s : MapCfg) (lid : ℕ) :
    List ℕ × List MapCfg :=
  (listeners ++ [lid], [s])

/-- The unsubscribe closure returned by `subscribe`: `listeners.delete(listener)`. -/
def MapConfigService.unsubscribe (listeners : List ℕ) (lid : ℕ) : List ℕ :=
  listeners.erase lid

/-! ## StateBase (lib/service/StateBase.ts)

`StateBase.subscribe(listener)` is `this.__store.subscribe(listener)` on a
zustand **vanilla** store.  Zustand vanilla `subscribe` only adds the
listener to the internal set and returns the deletion closure; listeners
are invoked on later `setState` calls, not at subscribe time (the file
itself documents the flow as `__store.setState -> zustand 通知 ->
listener(newState, prevState)`). -/

structure ZStore (T : Type) where
  state : T
  listeners : List ℕ

/-- `StateBase.subscribe`: register only.  The second component is the list
of snapshots the listener is synchronously invoked with before `subscribe`
returns — empty, because zustand replays nothing on subscribe. -/
def StateBase.subscribe {T : Type} (s : ZStore T) (lid : ℕ) : ZStore T × List T :=
  ({ s with listeners := s.listeners ++ [lid] }, [])

/-! ## BeaconPositionService (per-map variant used by MapsManager)

State is `{ currentMapId, anchorsByMap }`.  The per-map record
`anchorsByMap[mapId]` is modelled extensionally as a lookup function
`String → Option BeaconCoord` (a missing map id and an empty record `{}`
are indistinguishable because every read in the source applies `|| {}`).
`requireMapId` throws `"currentMapId not set"` when `currentMapId` is
falsy (null or the empty string); methods that can throw return `Except`.
Each successful edit returns the new state and the frames sent outward. -/

structure PosState where
  currentMapId : Option String
  anchorsByMap : String → String → Option BeaconCoord

/-- `requireMapId()`: return the current map id or throw. -/
def BeaconPositionService.requireMapId (s : PosState) : Except String String :=
  match s.currentMapId with
  | some m => if m = "" then .error "currentMapId not set" else .ok m
  | none => .error "currentMapId not set"

/-- `setCurrentMap(mapId)`: select the map; ensuring `anchorsByMap[mapId]`
exists is the identity in the extensional model (`x || {}` on reads). -/
def BeaconPositionService.setCurrentMap (s : PosState) (mapId : String) : PosState :=
  { s with currentMapId := some mapId }

/-- `getCurrentAnchors()`: the per-map record for the current map. -/
def BeaconPositionService.getCurrentAnchors (s : PosState) :
    Except String (String → Option BeaconCoord) :=
  match BeaconPositionService.requireMapId s with
  | .error e => .error e
  | .ok mapId => .ok (s.anchorsByMap mapId)

/-- `setCoord(mac, x, y)`: early-return on a falsy mac, otherwise write
`{mac,x,y}` into the current map record and send `SetBeaconPosition`. -/
def BeaconPositionService.setCoord (s : PosState) (mac : String) (x y : ℚ) :
    Except String (PosState × List OutMsg) :=
  if mac = "" then .ok (s, [])
  else
    match BeaconPositionService.requireMapId s with
    | .error e => .error e
    | .ok mapId =>
      let next : String → Option BeaconCoord := fun k =>
        if k = mac then some ⟨mac, x, y⟩ else s.anchorsByMap mapId k
      .ok ({ s with anchorsByMap := fun m =>
              if m = mapId then next else s.anchorsByMap m },
           [OutMsg.setBeaconPosition mapId mac x y])

/-- `clearCoord(mac)`: early-return on a falsy mac, otherwise delete the key
from the current map record and send `ClearCurrentBeaconPosition`. -/
def BeaconPositionService.clearCoord (s : PosState) (mac : String) :
    Except String (PosState × List OutMsg) :=
  if mac = "" then .ok (s, [])
  else
    match BeaconPositionService.requireMapId s with
    | .error e => .error e
    | .ok mapId =>
      let next : String → Option BeaconCoord := fun k =>
        if k = mac then none else s.anchorsByMap mapId k
      .ok ({ s with anchorsByMap := fun m =>
              if m = mapId then next else s.anchorsByMap m },
           [OutMsg.clearCurrentBeaconPosition mapId mac])

/-- `clearAll()`: empty the current map record and send `ClearAllBeaconPositions`. -/
def BeaconPositionService.clearAll (s : PosState) :
    Except String (PosState × List OutMsg) :=
  match BeaconPositionService.requireMapId s with
  | .error e => .error e
  | .ok mapId =>
    .ok ({ s with anchorsByMap := fun m =>
            if m = mapId then (fun _ => none) else s.anchorsByMap m },
         [OutMsg.clearAllBeaconPositions mapId])

/-- `getAllCoords()`: request a refresh (`GetBeaconPositions`) and return the
current record unchanged (callers read values from it). -/
def BeaconPositionService.getAllCoords (s : PosState) :
    Except String (PosState × List OutMsg) :=
  match BeaconPositionService.requireMapId s with
  | .error e => .error e
  | .ok mapId => .ok (s, [OutMsg.getBeaconPositions mapId])

/-- `setDefaultCoords()`: ask the backend to restore defaults. -/
def BeaconPositionService.setDefaultCoords (s : PosState) :
    Except String (PosState × List OutMsg) :=
  match BeaconPositionService.requireMapId s with
  | .error e => .error e
  | .ok mapId => .ok (s, [OutMsg.setDefaultBeaconPosition mapId])

/-- One step of the `loadFromServer` accumulation: skip null or mac-less
items, otherwise write `{mac: i.mac, x: i.x, y: i.y}` at key `i.mac`. -/
def BeaconPositionService.itemsStep (acc : String → Option BeaconCoord)
    (it : Option BeaconCoord) : String → Option BeaconCoord :=
  match it with
  | none => acc
  | some i =>
    if i.mac = "" then acc
    else fun k => if k = i.mac then some ⟨i.mac, i.x, i.y⟩ else acc k

/-- The record built by `loadFromServer` from a frame item list: starting
from the empty object, each non-null item with a truthy mac is written at
its mac (later items win). -/
def BeaconPositionService.itemsMap (items : List (Option BeaconCoord)) :
    String → Option BeaconCoord :=
  items.foldl BeaconPositionService.itemsStep (fun _ => none)

/-- `loadFromServer(mapId, items)`: replace the whole per-map record for
`mapId` with the record built from `items`; other maps are untouched. -/
def BeaconPositionService.loadFromServer (s : PosState) (mapId : String)
    (items : List (Option BeaconCoord)) : PosState :=
  { s with anchorsByMap := fun m =>
      if m = mapId then BeaconPositionService.itemsMap items else s.anchorsByMap m }

/-- `ingestFrame(msg)`: consume
`{cmd:"BeaconPositions", mapId, items:[...]}` (truthy mapId, array items);
anything else returns false with no effect. -/
def BeaconPositionService.ingestFrame (s : PosState) (f : Frame) : PosState × Bool :=
  match f.getCmd, f.getMapId, f.getItems with
  | some "BeaconPositions", some mapId, some items =>
    if mapId = "" then (s, false)
    else (BeaconPositionService.loadFromServer s mapId items, true)
  | _, _, _ => (s, false)

/-! ## LocateResultService (service-impl/LocateResultService.ts) -/

/-- One locate record; `ts` is the local receipt time (`Date.now()`),
passed in as a parameter of `ingestFrame`. -/
structure LocateRecord where
  mac : String
  x : ℚ
  y : ℚ
  rssi : ℚ
  devType : String
  anchors : List String
  ts : ℕ
  deriving DecidableEq, Repr

structure LocState where
  results : String → Option LocateRecord

/-- `pushLocate(rec)`: keep only the latest record per mac (overwrite). -/
def LocateResultService.pushLocate (s : LocState) (rec : LocateRecord) : LocState :=
  if rec.mac = "" then s
  else { s with results := fun k => if k = rec.mac then some rec else s.results k }

/-- `ingestFrame(msg)`: consume `{cmd:"RelayLocated", target_mac, ...}`;
x/y fall back to 0 when non-finite, anchors to `[]` when not an array. -/
def LocateResultService.ingestFrame (s : LocState) (now : ℕ) (f : Frame) :
    LocState × Bool :=
  if ¬ f.isObj then (s, false)
  else if f.cmd ≠ some "RelayLocated" then (s, false)
  else
    match f.target_mac with
    | none => (s, false)
    | some mac =>
      if mac = "" then (s, false)
      else
        let record : LocateRecord :=
          ⟨mac, f.xNum.getD 0, f.yNum.getD 0, f.rssiNum.getD 0, f.devType,
            f.anchorsArr.getD [], now⟩
        (LocateResultService.pushLocate s record, true)

/-! ## WebSocketService (service-impl/WebSocketService.ts)

Only the `send` path is needed by the claims.  The connection handle is
`ws : Option ReadyState` (`null` after close). -/

inductive ReadyState where
  | connecting
  | open
  | closing
  | closed
  deriving DecidableEq, Repr

structure WSState where
  ws : Option ReadyState
  deriving DecidableEq, Repr

/-- `send(data)`: transmit `JSON.stringify(data)` only when the socket
exists and `readyState === OPEN`; otherwise warn and drop — nothing is
queued or retried, the connection handle is untouched.  Returns the
(unchanged) connection state and the list of frames actually written. -/
def WebSocketService.send (s : WSState) (data : OutMsg) : WSState × List OutMsg :=
  match s.ws with
  | some ReadyState.open => (s, [data])
  | _ => (s, [])

/-! ## Coordinate transforms (views/maps-manager/MapsManager.tsx)

Render geometry as used by `clientToMeters`, `handleMapClick` and the
anchor render mapping: `rectLeft`/`rectTop` come from
`wrap.getBoundingClientRect()`, `left`/`top` are the centering `offset`,
`width`/`height` the `renderSize`, `sx`/`sy` the image→render `scale`,
and `meterToPixel` the current px/m ratio. -/

structure Geom where
  rectLeft : ℚ
  rectTop : ℚ
  left : ℚ
  top : ℚ
  width : ℚ
  height : ℚ
  sx : ℚ
  sy : ℚ
  meterToPixel : ℚ
  deriving DecidableEq, Repr

/-- `clientToMeters(clientX, clientY)`: null while the layout parameters are
not ready; otherwise clamp the container point into the rendered-image
region, convert to world meters (x right, y up from the rendered bottom),
and round both coordinates to 2 decimals. -/
def clientToMeters (g : Geom) (clientX clientY : ℚ) : Option (ℚ × ℚ) :=
  if g.width ≤ 0 ∨ g.height ≤ 0 then none
  else if g.sx ≤ 0 ∨ g.sy ≤ 0 then none
  else if g.meterToPixel ≤ 0 then none
  else
    let rx0 := clientX - g.rectLeft
    let ry0 := clientY - g.rectTop
    let minX := g.left
    let maxX := g.left + g.width
    let minY := g.top
    let maxY := g.top + g.height
    let rx1 := if rx0 < minX then minX else rx0
    let rx := if rx1 > maxX then maxX else rx1
    let ry1 := if ry0 < minY then minY else ry0
    let ry := if ry1 > maxY then maxY else ry1
    let mx := (rx - g.left) / (g.sx * g.meterToPixel)
    let my := (g.height - (ry - g.top)) / (g.sy * g.meterToPixel)
    some (round2 mx, round2 my)

/-- The anchor render mapping: `px = offset.left + ax·sx·meterToPixel`. -/
def anchorPx (g : Geom) (ax : ℚ) : ℚ :=
  g.left + ax * g.sx * g.meterToPixel

/-- The anchor render mapping:
`py = offset.top + renderSize.height − ay·sy·meterToPixel`. -/
def anchorPy (g : Geom) (ay : ℚ) : ℚ :=
  g.top + g.height - ay * g.sy * g.meterToPixel

/-- Screen→world→screen round trip on container coordinates `(rx, ry)`:
feed the corresponding client point through `clientToMeters`, then map the
resulting world coordinate back through the anchor render mapping. -/
def roundTrip (g : Geom) (rx ry : ℚ) : Option (ℚ × ℚ) :=
  (clientToMeters g (g.rectLeft + rx) (g.rectTop + ry)).map
    (fun m => (anchorPx g m.1, anchorPy g m.2))

/-! ## Calibration commit (MapsManager `commitMeterToPixel` / `confirmCalibrate`)

The calibration session at confirm time: the number of picked points,
the user-entered real distance in meters (`calibMeters`) and the
native-image pixel distance of the two points (`calibPixelDist`, stored by
`handleMapClick` as `Math.hypot` of the point difference). -/

structure CalibSession where
  numPoints : ℕ
  meters : ℚ
  pixelDist : ℚ
  deriving DecidableEq, Repr

/-- `commitMeterToPixel(v)`: fix to two decimals, reject non-positive
values, then hand to `mapConfigService.setMeterToPixel`. -/
def commitMeterToPixel (cfg : MapCfg) (v : ℚ) : MapCfg × List OutMsg :=
  let fixed := round2 v
  if fixed ≤ 0 then (cfg, [])
  else MapConfigService.setMeterToPixel cfg fixed

/-- `confirmCalibrate()`: require exactly two points, positive meters and
positive pixel distance (`!calibMeters` and `!calibPixelDist` are subsumed
by the ≤ 0 tests over ℚ), then commit `pixelDist / meters`. -/
def confirmCalibrate (sess : CalibSession) (cfg : MapCfg) : MapCfg × List OutMsg :=
  if sess.numPoints ≠ 2 then (cfg, [])
  else if sess.meters ≤ 0 then (cfg, [])
  else if sess.pixelDist ≤ 0 then (cfg, [])
  else commitMeterToPixel cfg (sess.pixelDist / sess.meters)

/-! ## Drag-commit pipeline (MapsManager `scheduleDragSend` / `flushDragSend`)

`dragRef.current` is `{mac, pending, lastSent, raf}`; `raf` is whether an
animation-frame callback is currently scheduled.  A commit is the
`(mac, x, y)` triple handed to `beaconPositionService.setCoord`. -/

structure DragSt where
  mac : Option String
  pending : Option (ℚ × ℚ)
  lastSent : Option (ℚ × ℚ)
  raf : Bool
  deriving DecidableEq, Repr

/-- `scheduleDragSend(mac, xy)`: record the newest pending coordinate and
request a new animation frame only when none is pending.  The Bool reports
whether a new `requestAnimationFrame` call was made. -/
def scheduleDragSend (st : DragSt) (mac : String) (xy : ℚ × ℚ) : DragSt × Bool :=
  let st1 : DragSt := { st with mac := some mac, pending := some xy }
  if st1.raf then (st1, false) else ({ st1 with raf := true }, true)

/-- `flushDragSend()`: the animation-frame callback.  Clear `raf`, skip when
no drag target or no pending coordinate, de-duplicate against `lastSent`,
otherwise commit the single latest pending coordinate. -/
def flushDragSend (st : DragSt) : DragSt × List (String × ℚ × ℚ) :=
  let st1 : DragSt := { st with raf := false }
  match st1.mac, st1.pending with
  | some mac, some xy =>
    if mac = "" then (st1, [])
    else if st1.lastSent = some xy then (st1, [])
    else ({ st1 with lastSent := some xy }, [(mac, xy.1, xy.2)])
  | _, _ => (st1, [])

/-- Deliver a burst of pointer-move events (each one a `scheduleDragSend`
call) within a single rendering frame; counts `requestAnimationFrame` calls. -/
def processMoves : DragSt → List (String × ℚ × ℚ) → DragSt × ℕ
  | st, [] => (st, 0)
  | st, mv :: rest =>
    let r1 := scheduleDragSend st mv.1 (mv.2.1, mv.2.2)
    let r2 := processMoves r1.1 rest
    (r2.1, (if r1.2 then 1 else 0) + r2.2)

/-- The commits issued for one frame: after the burst of moves, the one
scheduled animation-frame callback (if any) runs `flushDragSend` once. -/
def frameSends (st : DragSt) (moves : List (String × ℚ × ℚ)) : List (String × ℚ × ℚ) :=
  let st1 := (processMoves st moves).1
  if st1.raf then (flushDragSend st1).2 else []

/-! ## Helper lemmas -/

/-- Keys never written by any item stay `none` through the accumulation. -/
theorem itemsFold_none (items : List (Option BeaconCoord))
    (acc : String → Option BeaconCoord) (k : String)
    (h : ∀ i, some i ∈ items → i.mac ≠ k) (hacc : acc k = none) :
    (items.foldl BeaconPositionService.itemsStep acc) k = none := by
  induction items generalizing acc with
  | nil => exact hacc
  | cons it rest ih =>
    simp only [List.foldl_cons]
    refine ih _ (fun i hi => h i (List.mem_cons_of_mem _ hi)) ?_
    cases it with
    | none => exact hacc
    | some i =>
      have hne : k ≠ i.mac := fun hk => (h i (List.mem_cons_self _ _)) hk.symm
      simp only [BeaconPositionService.itemsStep]
      by_cases hmac : i.mac = ""
      · simpa [hmac] using hacc
      · simpa [hmac, hne] using hacc

/-- A key mentioned by no item of the frame is absent from `itemsMap`. -/
theorem itemsMap_eq_none (items : List (Option BeaconCoord)) (k : String)
    (h : ∀ i, some i ∈ items → i.mac ≠ k) :
    BeaconPositionService.itemsMap items k = none :=
  itemsFold_none items _ k h rfl

/-- Once an animation frame is pending, further moves never request another
one, and the pending flag stays set. -/
theorem processMoves_raf_pending (moves : List (String × ℚ × ℚ)) (st : DragSt)
    (h : st.raf = true) :
    (processMoves st moves).1.raf = true ∧ (processMoves st moves).2 = 0 := by
  induction moves generalizing st with
  | nil => exact ⟨h, rfl⟩
  | cons mv rest ih =>
    have hraf1 : (scheduleDragSend st mv.1 (mv.2.1, mv.2.2)).1.raf = true := by
      simp [scheduleDragSend, h]
    have hreq : (scheduleDragSend st mv.1 (mv.2.1, mv.2.2)).2 = false := by
      simp [scheduleDragSend, h]
    simp only [processMoves, hreq, if_false]
    exact ⟨(ih _ hraf1).1, by simp [(ih _ hraf1).2]⟩

/-- After a non-empty burst of moves, the scheduled state carries the last
move as drag target and pending coordinate. -/
theorem processMoves_last (moves : List (String × ℚ × ℚ)) (st : DragSt)
    (h : moves ≠ []) :
    (processMoves st moves).1.mac = some (moves.getLast h).1 ∧
    (processMoves st moves).1.pending =
      some ((moves.getLast h).2.1, (moves.getLast h).2.2) := by
  induction moves generalizing st with
  | nil => exact absurd rfl h
  | cons mv rest ih =>
    by_cases hr : rest = []
    · subst hr
      by_cases hb : st.raf <;>
        simp [processMoves, scheduleDragSend, hb, List.getLast_singleton]
    · have hlast : (mv :: rest).getLast h = rest.getLast hr := List.getLast_cons hr
      rw [hlast]
      simp only [processMoves]
      exact ih (scheduleDragSend st mv.1 (mv.2.1, mv.2.2)).1 hr

/-! ## Claim theorems -/

/-- C1 (counterexample): the claim asserts that *every* Domain State Store
invokes the listener exactly once with the current snapshot before
`subscribe` returns.  For the stores built on `StateBase` (anchor
positions, locate results, telemetry, …) `subscribe` delegates to the
zustand vanilla store, which registers the listener without invoking it:
on a concrete store the list of synchronous invocations is empty, not a
one-element replay of the snapshot. -/
theorem stateBase_subscribe_no_replay :
    (StateBase.subscribe (⟨(42 : ℚ), []⟩ : ZStore ℚ) 0).2 = ([] : List ℚ) ∧
    ¬ ((StateBase.subscribe (⟨(42 : ℚ), []⟩ : ZStore ℚ) 0).2 = [42]) := by
  constructor
  · rfl
  · intro hc
    simp [StateBase.subscribe] at hc

/-- C1 (amended): `MapConfigService.subscribe` registers the listener,
invokes it exactly once with the current snapshot before returning, and
returns an unsubscribe closure that removes exactly that listener;
`StateBase`-derived stores only register (their callers read `getState()`
for the initial snapshot themselves). -/
theorem mapConfig_subscribe_replay (listeners : List ℕ) (s : MapCfg) (lid : ℕ)
    (h : lid ∉ listeners) :
    (MapConfigService.subscribe listeners s lid).2 = [s] ∧
    MapConfigService.unsubscribe (MapConfigService.subscribe listeners s lid).1 lid
      = listeners := by
  refine ⟨rfl, ?_⟩
  unfold MapConfigService.subscribe MapConfigService.unsubscribe
  rw [List.erase_append_right _ h]
  simp

/-- C1 witness for `mapConfig_subscribe_replay` at a concrete input. -/
theorem mapConfig_subscribe_replay_witness :
    (MapConfigService.subscribe [7] ⟨300, true⟩ 3).2 = [⟨300, true⟩] ∧
    MapConfigService.unsubscribe (MapConfigService.subscribe [7] ⟨300, true⟩ 3).1 3
      = [7] :=
  mapConfig_subscribe_replay [7] ⟨300, true⟩ 3 (by decide)

/-- The `{cmd:"BeaconPositions", mapId, items}` frame. -/
def beaconPositionsFrame (mapId : String) (items : List (Option BeaconCoord)) : Frame :=
  { Frame.base with
    cmd := some "BeaconPositions"
    mapId := some mapId
    items := some items }

/-- C2: consuming a full-list `BeaconPositions` frame replaces the whole
per-map anchor record for that map: the frame is claimed (true), the
resulting record equals the record built from the frame items alone,
any previously stored key that no frame item mentions is gone, and all
other maps are untouched. -/
theorem beaconPositions_full_list_replaces (s : PosState) (m : String) (hm : m ≠ "")
    (items : List (Option BeaconCoord)) :
    (BeaconPositionService.ingestFrame s (beaconPositionsFrame m items)).2 = true ∧
    (∀ k, (BeaconPositionService.ingestFrame s (beaconPositionsFrame m items)).1.anchorsByMap m k
        = BeaconPositionService.itemsMap items k) ∧
    (∀ k, (∀ i, some i ∈ items → i.mac ≠ k) →
      (BeaconPositionService.ingestFrame s (beaconPositionsFrame m items)).1.anchorsByMap m k
        = none) ∧
    (∀ m2, m2 ≠ m →
      (BeaconPositionService.ingestFrame s (beaconPositionsFrame m items)).1.anchorsByMap m2
        = s.anchorsByMap m2) := by
  have hingest : BeaconPositionService.ingestFrame s (beaconPositionsFrame m items)
      = (BeaconPositionService.loadFromServer s m items, true) := by
    simp [BeaconPositionService.ingestFrame, beaconPositionsFrame, Frame.base,
      Frame.getCmd, Frame.getMapId, Frame.getItems, hm]
  refine ⟨by rw [hingest], ?_, ?_, ?_⟩
  · intro k
    rw [hingest]
    simp [BeaconPositionService.loadFromServer]
  · intro k hk
    rw [hingest]
    simp only [BeaconPositionService.loadFromServer, if_pos rfl]
    exact itemsMap_eq_none items k hk
  · intro m2 hm2
    rw [hingest]
    simp [BeaconPositionService.loadFromServer, hm2]

/-- C2 witness: a concrete prior state holding anchors "AA" and "BB" on map
"m1"; a full-list frame listing only "AA" keeps "AA", removes "BB", and
leaves map "m2" alone. -/
theorem beaconPositions_full_list_replaces_witness :
    (BeaconPositionService.ingestFrame
        ⟨some "m1", fun m k =>
          if m = "m1" ∧ (k = "AA" ∨ k = "BB") then some ⟨k, 1, 1⟩ else none⟩
        (beaconPositionsFrame "m1" [some ⟨"AA", 3, 4⟩])).2 = true ∧
    (∀ k, (BeaconPositionService.ingestFrame
        ⟨some "m1", fun m k =>
          if m = "m1" ∧ (k = "AA" ∨ k = "BB") then some ⟨k, 1, 1⟩ else none⟩
        (beaconPositionsFrame "m1" [some ⟨"AA", 3, 4⟩])).1.anchorsByMap "m1" k
        = BeaconPositionService.itemsMap [some ⟨"AA", 3, 4⟩] k) ∧
    (∀ k, (∀ i, some i ∈ [some (⟨"AA", 3, 4⟩ : BeaconCoord)] → i.mac ≠ k) →
      (BeaconPositionService.ingestFrame
        ⟨some "m1", fun m k =>
          if m = "m1" ∧ (k = "AA" ∨ k = "BB") then some ⟨k, 1, 1⟩ else none⟩
        (beaconPositionsFrame "m1" [some ⟨"AA", 3, 4⟩])).1.anchorsByMap "m1" k
        = none) ∧
    (∀ m2, m2 ≠ "m1" →
      (BeaconPositionService.ingestFrame
        ⟨some "m1", fun m k =>
          if m = "m1" ∧ (k = "AA" ∨ k = "BB") then some ⟨k, 1, 1⟩ else none⟩
        (beaconPositionsFrame "m1" [some ⟨"AA", 3, 4⟩])).1.anchorsByMap m2
        = (fun (m k : String) =>
            if m = "m1" ∧ (k = "AA" ∨ k = "BB") then some (⟨k, 1, 1⟩ : BeaconCoord) else none) m2) :=
  beaconPositions_full_list_replaces _ "m1" (by decide) _

/-- C4: while the socket is absent or not OPEN, `send` drops the frame:
nothing is transmitted and the connection state is returned unchanged
(nothing is queued — the model transmits exactly the returned list). -/
theorem send_not_open_drops (s : WSState) (data : OutMsg)
    (h : s.ws ≠ some ReadyState.open) :
    WebSocketService.send s data = (s, []) := by
  unfold WebSocketService.send
  split
  · next heq => exact absurd heq h
  · rfl

/-- C4 witness: after a disconnect (`ws = null`), a concrete send is a no-op. -/
theorem send_not_open_drops_witness :
    WebSocketService.send ⟨none⟩ (OutMsg.setMapScale 300) = (⟨none⟩, []) :=
  send_not_open_drops ⟨none⟩ (OutMsg.setMapScale 300) (by decide)

/-- C5: a frame whose command tag a store does not recognize (including any
non-object input, whose `cmd` reads as undefined) is refused by that store:
`ingestFrame` returns false with the state unchanged and nothing sent. -/
theorem ingest_unrecognized_no_effect (f : Frame) (s1 : PosState) (s2 : MapCfg)
    (s3 : LocState) (now : ℕ) :
    (f.getCmd ≠ some "BeaconPositions" →
      BeaconPositionService.ingestFrame s1 f = (s1, false)) ∧
    (f.getCmd ≠ some "MapScale" →
      MapConfigService.ingestFrame s2 f = (s2, false, [])) ∧
    (f.getCmd ≠ some "RelayLocated" →
      LocateResultService.ingestFrame s3 now f = (s3, false)) := by
  refine ⟨?_, ?_, ?_⟩
  · intro h
    unfold BeaconPositionService.ingestFrame
    split
    · next heq _ _ => exact absurd heq h
    · rfl
  · intro h
    unfold MapConfigService.ingestFrame
    by_cases hobj : f.isObj
    · rw [if_neg (by simpa using hobj)]
      have hcmd : f.cmd ≠ some "MapScale" := by
        rwa [Frame.getCmd, if_pos hobj] at h
      split
      · next heq _ => exact absurd heq hcmd
      · rfl
    · rw [if_pos (by simpa using hobj)]
  · intro h
    unfold LocateResultService.ingestFrame
    by_cases hobj : f.isObj
    · rw [if_neg (by simpa using hobj)]
      have hcmd : f.cmd ≠ some "RelayLocated" := by
        rwa [Frame.getCmd, if_pos hobj] at h
      rw [if_pos hcmd]
    · rw [if_pos (by simpa using hobj)]

/-- C5 witness: an object frame tagged "Bogus" is refused by all three
stores with no state change. -/
theorem ingest_unrecognized_no_effect_witness :
    (BeaconPositionService.ingestFrame ⟨none, fun _ _ => none⟩
        { Frame.base with cmd := some "Bogus" }
      = (⟨none, fun _ _ => none⟩, false)) ∧
    (MapConfigService.ingestFrame ⟨300, true⟩ { Frame.base with cmd := some "Bogus" }
      = (⟨300, true⟩, false, [])) ∧
    (LocateResultService.ingestFrame ⟨fun _ => none⟩ 0
        { Frame.base with cmd := some "Bogus" }
      = (⟨fun _ => none⟩, false)) := by
  have h := ingest_unrecognized_no_effect { Frame.base with cmd := some "Bogus" }
    ⟨none, fun _ _ => none⟩ ⟨300, true⟩ ⟨fun _ => none⟩ 0
  exact ⟨h.1 (by decide), h.2.1 (by decide), h.2.2 (by decide)⟩

/-- Evaluation of `setCoord` when a map id is available. -/
theorem setCoord_ok_eq (s : PosState) (m mac : String) (x y : ℚ)
    (hmac : mac ≠ "") (hreq : BeaconPositionService.requireMapId s = .ok m) :
    BeaconPositionService.setCoord s mac x y =
      .ok ({ s with
              anchorsByMap := fun m2 =>
                if m2 = m then
                  (fun k => if k = mac then some ⟨mac, x, y⟩ else s.anchorsByMap m k)
                else s.anchorsByMap m2 },
           [OutMsg.setBeaconPosition m mac x y]) := by
  simp only [BeaconPositionService.setCoord, if_neg hmac, hreq]

/-- Evaluation of `clearCoord` when a map id is available. -/
theorem clearCoord_ok_eq (s : PosState) (m mac : String)
    (hmac : mac ≠ "") (hreq : BeaconPositionService.requireMapId s = .ok m) :
    BeaconPositionService.clearCoord s mac =
      .ok ({ s with
              anchorsByMap := fun m2 =>
                if m2 = m then
                  (fun k => if k = mac then none else s.anchorsByMap m k)
                else s.anchorsByMap m2 },
           [OutMsg.clearCurrentBeaconPosition m mac]) := by
  simp only [BeaconPositionService.clearCoord, if_neg hmac, hreq]

/-- Evaluation of `clearAll` when a map id is available. -/
theorem clearAll_ok_eq (s : PosState) (m : String)
    (hreq : BeaconPositionService.requireMapId s = .ok m) :
    BeaconPositionService.clearAll s =
      .ok ({ s with
              anchorsByMap := fun m2 =>
                if m2 = m then (fun _ => none) else s.anchorsByMap m2 },
           [OutMsg.clearAllBeaconPositions m]) := by
  simp only [BeaconPositionService.clearAll, hreq]

/-- Evaluation of `getAllCoords` when a map id is available. -/
theorem getAllCoords_ok_eq (s : PosState) (m : String)
    (hreq : BeaconPositionService.requireMapId s = .ok m) :
    BeaconPositionService.getAllCoords s = .ok (s, [OutMsg.getBeaconPositions m]) := by
  simp only [BeaconPositionService.getAllCoords, hreq]

/-- Evaluation of `setDefaultCoords` when a map id is available. -/
theorem setDefaultCoords_ok_eq (s : PosState) (m : String)
    (hreq : BeaconPositionService.requireMapId s = .ok m) :
    BeaconPositionService.setDefaultCoords s
      = .ok (s, [OutMsg.setDefaultBeaconPosition m]) := by
  simp only [BeaconPositionService.setDefaultCoords, hreq]

/-- C9: with a current map `m` selected and a non-empty key, `setCoord`
stores exactly `{mac, x, y}` under that key and touches no other key and no
other map; a following `clearCoord` removes only that key, again leaving
every other anchor entry and every other map unchanged. -/
theorem setCoord_clearCoord_roundtrip (s : PosState) (m mac : String) (x y : ℚ)
    (hmap : s.currentMapId = some m) (hm : m ≠ "") (hmac : mac ≠ "") :
    ∃ s1 out1 s2 out2,
      BeaconPositionService.setCoord s mac x y = .ok (s1, out1) ∧
      s1.anchorsByMap m mac = some ⟨mac, x, y⟩ ∧
      (∀ k, k ≠ mac → s1.anchorsByMap m k = s.anchorsByMap m k) ∧
      (∀ m2, m2 ≠ m → s1.anchorsByMap m2 = s.anchorsByMap m2) ∧
      BeaconPositionService.clearCoord s1 mac = .ok (s2, out2) ∧
      s2.anchorsByMap m mac = none ∧
      (∀ k, k ≠ mac → s2.anchorsByMap m k = s1.anchorsByMap m k) ∧
      (∀ m2, m2 ≠ m → s2.anchorsByMap m2 = s1.anchorsByMap m2) := by
  have hreq : BeaconPositionService.requireMapId s = .ok m := by
    simp [BeaconPositionService.requireMapId, hmap, hm]
  have hset := setCoord_ok_eq s m mac x y hmac hreq
  have hreq1 : BeaconPositionService.requireMapId
      ({ s with
          anchorsByMap := fun m2 =>
            if m2 = m then
              (fun k => if k = mac then some ⟨mac, x, y⟩ else s.anchorsByMap m k)
            else s.anchorsByMap m2 } : PosState) = .ok m := by
    simp [BeaconPositionService.requireMapId, hmap, hm]
  have hclear := clearCoord_ok_eq _ m mac hmac hreq1
  refine ⟨_, _, _, _, hset, ?_, ?_, ?_, hclear, ?_, ?_, ?_⟩
  · simp
  · intro k hk; simp [hk]
  · intro m2 hm2; simp [hm2]
  · simp
  · intro k hk; simp [hk]
  · intro m2 hm2; simp [hm2]

/-- C9 witness: concrete round trip for mac "AA" at (3, 4) on map "m1". -/
theorem setCoord_clearCoord_roundtrip_witness :
    ∃ s1 out1 s2 out2,
      BeaconPositionService.setCoord ⟨some "m1", fun _ _ => none⟩ "AA" 3 4
        = .ok (s1, out1) ∧
      s1.anchorsByMap "m1" "AA" = some ⟨"AA", 3, 4⟩ ∧
      (∀ k, k ≠ "AA" → s1.anchorsByMap "m1" k
        = (⟨some "m1", fun _ _ => none⟩ : PosState).anchorsByMap "m1" k) ∧
      (∀ m2, m2 ≠ "m1" → s1.anchorsByMap m2
        = (⟨some "m1", fun _ _ => none⟩ : PosState).anchorsByMap m2) ∧
      BeaconPositionService.clearCoord s1 "AA" = .ok (s2, out2) ∧
      s2.anchorsByMap "m1" "AA" = none ∧
      (∀ k, k ≠ "AA" → s2.anchorsByMap "m1" k = s1.anchorsByMap "m1" k) ∧
      (∀ m2, m2 ≠ "m1" → s2.anchorsByMap m2 = s1.anchorsByMap m2) :=
  setCoord_clearCoord_roundtrip ⟨some "m1", fun _ _ => none⟩ "m1" "AA" 3 4 rfl
    (by decide) (by decide)

/-- C10 (counterexample): the claim says *every* anchor edit/query throws
"currentMapId not set" when no map is selected; but `setCoord` (and
`clearCoord`) test the mac argument *before* `requireMapId`, so with an
empty mac they return normally — no exception — even with no current map. -/
theorem setCoord_empty_mac_no_throw :
    BeaconPositionService.setCoord ⟨none, fun _ _ => none⟩ "" 1 2
      = .ok (⟨none, fun _ _ => none⟩, []) := rfl

/-- C10 (amended): with no current map selected, `clearAll`, `getAllCoords`,
`setDefaultCoords`, and `setCoord`/`clearCoord` called with a non-empty mac
all throw "currentMapId not set" (the `Except.error` carries no new state
and no outbound sends; `setCoord`/`clearCoord` with an empty mac return
early as silent no-ops); once `setCurrentMap` has been called with a
non-empty map id, the error branch is unreachable — every operation
returns `.ok`. -/
theorem requireMapId_guard (s : PosState) (mac : String) (x y : ℚ)
    (hmac : mac ≠ "") :
    (s.currentMapId = none →
      BeaconPositionService.setCoord s mac x y = .error "currentMapId not set" ∧
      BeaconPositionService.clearCoord s mac = .error "currentMapId not set" ∧
      BeaconPositionService.clearAll s = .error "currentMapId not set" ∧
      BeaconPositionService.getAllCoords s = .error "currentMapId not set" ∧
      BeaconPositionService.setDefaultCoords s = .error "currentMapId not set") ∧
    (∀ m, m ≠ "" →
      (∃ r, BeaconPositionService.setCoord
        (BeaconPositionService.setCurrentMap s m) mac x y = .ok r) ∧
      (∃ r, BeaconPositionService.clearCoord
        (BeaconPositionService.setCurrentMap s m) mac = .ok r) ∧
      (∃ r, BeaconPositionService.clearAll
        (BeaconPositionService.setCurrentMap s m) = .ok r) ∧
      (∃ r, BeaconPositionService.getAllCoords
        (BeaconPositionService.setCurrentMap s m) = .ok r) ∧
      (∃ r, BeaconPositionService.setDefaultCoords
        (BeaconPositionService.setCurrentMap s m) = .ok r)) := by
  constructor
  · intro hnone
    have hreq : BeaconPositionService.requireMapId s
        = .error "currentMapId not set" := by
      simp [BeaconPositionService.requireMapId, hnone]
    refine ⟨?_, ?_, ?_, ?_, ?_⟩ <;>
      simp only [BeaconPositionService.setCoord, BeaconPositionService.clearCoord,
        BeaconPositionService.clearAll, BeaconPositionService.getAllCoords,
        BeaconPositionService.setDefaultCoords, if_neg hmac, hreq]
  · intro m hm
    have hreq : BeaconPositionService.requireMapId
        (BeaconPositionService.setCurrentMap s m) = .ok m := by
      simp [BeaconPositionService.requireMapId, BeaconPositionService.setCurrentMap, hm]
    exact ⟨⟨_, setCoord_ok_eq _ m mac x y hmac hreq⟩,
      ⟨_, clearCoord_ok_eq _ m mac hmac hreq⟩,
      ⟨_, clearAll_ok_eq _ m hreq⟩,
      ⟨_, getAllCoords_ok_eq _ m hreq⟩,
      ⟨_, setDefaultCoords_ok_eq _ m hreq⟩⟩

/-- C10 witness for `requireMapId_guard` at a concrete state and key. -/
theorem requireMapId_guard_witness :
    ((⟨none, fun _ _ => none⟩ : PosState).currentMapId = none →
      BeaconPositionService.setCoord ⟨none, fun _ _ => none⟩ "AA" 1 2
        = .error "currentMapId not set" ∧
      BeaconPositionService.clearCoord ⟨none, fun _ _ => none⟩ "AA"
        = .error "currentMapId not set" ∧
      BeaconPositionService.clearAll ⟨none, fun _ _ => none⟩
        = .error "currentMapId not set" ∧
      BeaconPositionService.getAllCoords ⟨none, fun _ _ => none⟩
        = .error "currentMapId not set" ∧
      BeaconPositionService.setDefaultCoords ⟨none, fun _ _ => none⟩
        = .error "currentMapId not set") ∧
    (∀ m, m ≠ "" →
      (∃ r, BeaconPositionService.setCoord
        (BeaconPositionService.setCurrentMap ⟨none, fun _ _ => none⟩ m) "AA" 1 2 = .ok r) ∧
      (∃ r, BeaconPositionService.clearCoord
        (BeaconPositionService.setCurrentMap ⟨none, fun _ _ => none⟩ m) "AA" = .ok r) ∧
      (∃ r, BeaconPositionService.clearAll
        (BeaconPositionService.setCurrentMap ⟨none, fun _ _ => none⟩ m) = .ok r) ∧
      (∃ r, BeaconPositionService.getAllCoords
        (BeaconPositionService.setCurrentMap ⟨none, fun _ _ => none⟩ m) = .ok r) ∧
      (∃ r, BeaconPositionService.setDefaultCoords
        (BeaconPositionService.setCurrentMap ⟨none, fun _ _ => none⟩ m) = .ok r)) :=
  requireMapId_guard ⟨none, fun _ _ => none⟩ "AA" 1 2 (by decide)

/-- The remote `{cmd:"MapScale", meter_to_pixel}` frame. -/
def mapScaleFrame (w : ℚ) : Frame :=
  { Frame.base with
    cmd := some "MapScale"
    meter_to_pixel := some w }

/-- C8: loop prevention for the scale store.  A local `setMeterToPixel`
whose normalized value differs from the stored one updates the state *and*
emits exactly one outbound `SetMapScale` (the sender being bound);
consuming a remote `MapScale` frame applies the value locally, claims the
frame, and emits no outbound command. -/
theorem mapScale_loop_prevention (c : MapCfg) (v w fx fw : ℚ)
    (hv : MapConfigService.normalize v = some fx) (hne : fx ≠ c.meterToPixel)
    (hb : c.bound = true)
    (hw : MapConfigService.normalize w = some fw) :
    MapConfigService.setMeterToPixel c v
      = ({ c with meterToPixel := fx }, [OutMsg.setMapScale fx]) ∧
    (MapConfigService.ingestFrame c (mapScaleFrame w)).1.meterToPixel = fw ∧
    (MapConfigService.ingestFrame c (mapScaleFrame w)).2.1 = true ∧
    (MapConfigService.ingestFrame c (mapScaleFrame w)).2.2 = [] := by
  have hlocal : MapConfigService.setMeterToPixelLocal c fx
      = ({ c with meterToPixel := fx }, true) := by
    unfold MapConfigService.setMeterToPixelLocal
    rw [if_neg (fun hh => hne hh.symm)]
  have hingest : MapConfigService.ingestFrame c (mapScaleFrame w)
      = ((MapConfigService.setMeterToPixelLocal c fw).1, true, []) := by
    simp [MapConfigService.ingestFrame, mapScaleFrame, Frame.base, hw]
  refine ⟨?_, ?_, ?_, ?_⟩
  · unfold MapConfigService.setMeterToPixel
    rw [hv]
    simp only [hlocal, if_true, MapConfigService.sendToServer, hb]
  · rw [hingest]
    unfold MapConfigService.setMeterToPixelLocal
    by_cases heq : c.meterToPixel = fw
    · rw [if_pos heq]; exact heq
    · rw [if_neg heq]
  · rw [hingest]
  · rw [hingest]

/-- C8 witness: from a bound store at 300, a local edit to 120 updates and
emits one SetMapScale; a remote MapScale 50 frame applies without emitting. -/
theorem mapScale_loop_prevention_witness :
    MapConfigService.setMeterToPixel ⟨300, true⟩ 120
      = (⟨120, true⟩, [OutMsg.setMapScale 120]) ∧
    (MapConfigService.ingestFrame ⟨300, true⟩ (mapScaleFrame 50)).1.meterToPixel = 50 ∧
    (MapConfigService.ingestFrame ⟨300, true⟩ (mapScaleFrame 50)).2.1 = true ∧
    (MapConfigService.ingestFrame ⟨300, true⟩ (mapScaleFrame 50)).2.2 = [] := by
  have h120 : MapConfigService.normalize 120 = some 120 := by
    unfold MapConfigService.normalize
    rw [if_neg (by norm_num), round2_eval 120 12000 (by norm_num) (by norm_num)]
    norm_num
  have h50 : MapConfigService.normalize 50 = some 50 := by
    unfold MapConfigService.normalize
    rw [if_neg (by norm_num), round2_eval 50 5000 (by norm_num) (by norm_num)]
    norm_num
  exact mapScale_loop_prevention ⟨300, true⟩ 120 50 120 50 h120 (by norm_num) rfl h50

/-- C6 (counterexample): with two picked points at native pixel distance
D = 1 and user-entered distance M = 1000, both positive, confirm commits
nothing: D/M rounds to 0.00, `commitMeterToPixel` rejects it, the scale
state stays 300 and no outbound command is sent — while the claim requires
the rounded ratio to be committed locally and emitted. -/
theorem confirmCalibrate_small_ratio_rejected :
    (confirmCalibrate ⟨2, 1000, 1⟩ ⟨300, true⟩).2 = [] ∧
    (confirmCalibrate ⟨2, 1000, 1⟩ ⟨300, true⟩).1 = ⟨300, true⟩ := by
  have hr : round2 ((1 : ℚ) / 1000) = 0 := by
    rw [round2_eval ((1 : ℚ) / 1000) 0 (by norm_num) (by norm_num)]
    norm_num
  have heval : confirmCalibrate ⟨2, 1000, 1⟩ ⟨300, true⟩ = (⟨300, true⟩, []) := by
    unfold confirmCalibrate commitMeterToPixel
    rw [if_neg (by norm_num), if_neg (by norm_num), if_neg (by norm_num)]
    rw [if_pos (by rw [show ((⟨2, 1000, 1⟩ : CalibSession).pixelDist
          / (⟨2, 1000, 1⟩ : CalibSession).meters) = (1 : ℚ) / 1000 from rfl, hr])]
  rw [heval]
  exact ⟨rfl, rfl⟩

/-- C6 (amended): with two picked points, M > 0 and D > 0, *and* D/M
rounding to a positive 2-decimal value different from the stored ratio,
confirm commits `round2(D/M)` to the scale store and emits exactly one
outbound SetMapScale carrying it (sender bound); when the rounded ratio is
not positive nothing is committed; M ≤ 0 is rejected without committing. -/
theorem confirmCalibrate_spec (sess : CalibSession) (cfg : MapCfg) :
    (sess.numPoints = 2 → 0 < sess.meters → 0 < sess.pixelDist →
      0 < round2 (sess.pixelDist / sess.meters) →
      round2 (sess.pixelDist / sess.meters) ≠ cfg.meterToPixel →
      cfg.bound = true →
      confirmCalibrate sess cfg =
        ({ cfg with meterToPixel := round2 (sess.pixelDist / sess.meters) },
         [OutMsg.setMapScale (round2 (sess.pixelDist / sess.meters))])) ∧
    (sess.meters ≤ 0 → confirmCalibrate sess cfg = (cfg, [])) := by
  constructor
  · intro h2 hm hd hpos hne hb
    unfold confirmCalibrate
    rw [if_neg (by simp [h2]), if_neg (not_le.mpr hm), if_neg (not_le.mpr hd)]
    unfold commitMeterToPixel
    rw [if_neg (not_le.mpr hpos)]
    have hnorm : MapConfigService.normalize (round2 (sess.pixelDist / sess.meters))
        = some (round2 (sess.pixelDist / sess.meters)) := by
      unfold MapConfigService.normalize
      rw [if_neg (not_le.mpr hpos), round2_idem]
    unfold MapConfigService.setMeterToPixel
    rw [hnorm]
    have hlocal : MapConfigService.setMeterToPixelLocal cfg
        (round2 (sess.pixelDist / sess.meters))
        = ({ cfg with meterToPixel := round2 (sess.pixelDist / sess.meters) }, true) := by
      unfold MapConfigService.setMeterToPixelLocal
      rw [if_neg (fun hh => hne hh.symm)]
    simp only [hlocal, if_true, MapConfigService.sendToServer, hb]
  · intro hm
    unfold confirmCalibrate
    by_cases h2 : sess.numPoints = 2
    · rw [if_neg (by simp [h2]), if_pos hm]
    · rw [if_pos h2]

/-- C6 witness: D = 600 px over M = 5 m commits 120 px/m locally and emits
one SetMapScale 120; a session with M = 0 commits nothing. -/
theorem confirmCalibrate_spec_witness :
    confirmCalibrate ⟨2, 5, 600⟩ ⟨300, true⟩
      = ({ meterToPixel := round2 (600 / 5), bound := true },
         [OutMsg.setMapScale (round2 (600 / 5))]) ∧
    confirmCalibrate ⟨2, 0, 600⟩ ⟨300, true⟩ = (⟨300, true⟩, []) := by
  have h120 : round2 ((600 : ℚ) / 5) = 120 := by
    rw [round2_eval ((600 : ℚ) / 5) 12000 (by norm_num) (by norm_num)]
    norm_num
  constructor
  · exact (confirmCalibrate_spec ⟨2, 5, 600⟩ ⟨300, true⟩).1 rfl (by norm_num)
      (by norm_num)
      (by show (0 : ℚ) < round2 ((600 : ℚ) / 5); rw [h120]; norm_num)
      (by show round2 ((600 : ℚ) / 5) ≠ (300 : ℚ); rw [h120]; norm_num)
      rfl
  · exact (confirmCalibrate_spec ⟨2, 0, 600⟩ ⟨300, true⟩).2 (by norm_num)

/-- The animation-frame flush commits at most one coordinate. -/
theorem flushDragSend_len_le_one (st : DragSt) : (flushDragSend st).2.length ≤ 1 := by
  unfold flushDragSend
  dsimp only
  split
  · split
    · simp
    · split <;> simp
  · simp

/-- C7: drag throttling.  Starting a rendering frame with no pending
animation-frame callback, any burst of pointer-move events (e.g. 100 of
them) requests at most one animation frame, and the end-of-frame flush
issues at most one outbound position commit — which, when issued, carries
exactly the last move of the burst. -/
theorem dragThrottle_one_commit_per_frame (st : DragSt)
    (moves : List (String × ℚ × ℚ)) (h : st.raf = false) :
    (processMoves st moves).2 ≤ 1 ∧
    (frameSends st moves).length ≤ 1 ∧
    (∀ c ∈ frameSends st moves, ∃ hne : moves ≠ [], c = moves.getLast hne) := by
  refine ⟨?_, ?_, ?_⟩
  · cases moves with
    | nil => simp [processMoves]
    | cons mv rest =>
      have hraf1 : (scheduleDragSend st mv.1 (mv.2.1, mv.2.2)).1.raf = true := by
        simp [scheduleDragSend, h]
      have hreq : (scheduleDragSend st mv.1 (mv.2.1, mv.2.2)).2 = true := by
        simp [scheduleDragSend, h]
      simp only [processMoves, hreq, if_true]
      rw [(processMoves_raf_pending rest _ hraf1).2]
  · unfold frameSends
    dsimp only
    split
    · exact flushDragSend_len_le_one _
    · simp
  · intro c hc
    unfold frameSends at hc
    dsimp only at hc
    by_cases h1 : (processMoves st moves).1.raf = true
    · rw [if_pos h1] at hc
      have hne : moves ≠ [] := by
        intro hmv
        subst hmv
        simp only [processMoves] at h1
        rw [h] at h1
        exact Bool.false_ne_true h1
      refine ⟨hne, ?_⟩
      obtain ⟨hmac, hpend⟩ := processMoves_last moves st hne
      simp only [flushDragSend, hmac, hpend] at hc
      by_cases hempty : (moves.getLast hne).1 = ""
      · rw [if_pos hempty] at hc
        simp at hc
      · rw [if_neg hempty] at hc
        by_cases hdup : ({ (processMoves st moves).1 with raf := false } : DragSt).lastSent
            = some ((moves.getLast hne).2.1, (moves.getLast hne).2.2)
        · rw [if_pos hdup] at hc
          simp at hc
        · rw [if_neg hdup] at hc
          simp only [List.mem_singleton] at hc
          rw [hc]
    · rw [if_neg h1] at hc
      simp at hc

/-- C7 witness: 100 pointer-move events in one frame, starting idle,
produce at most one animation-frame request and at most one commit,
carrying the last coordinate. -/
theorem dragThrottle_one_commit_per_frame_witness :
    (processMoves ⟨none, none, none, false⟩
        (List.replicate 100 ("AA", (1 : ℚ), (2 : ℚ)))).2 ≤ 1 ∧
    (frameSends ⟨none, none, none, false⟩
        (List.replicate 100 ("AA", (1 : ℚ), (2 : ℚ)))).length ≤ 1 ∧
    (∀ c ∈ frameSends ⟨none, none, none, false⟩
        (List.replicate 100 ("AA", (1 : ℚ), (2 : ℚ))),
      ∃ hne : List.replicate 100 ("AA", (1 : ℚ), (2 : ℚ)) ≠ [],
        c = (List.replicate 100 ("AA", (1 : ℚ), (2 : ℚ))).getLast hne) :=
  dragThrottle_one_commit_per_frame ⟨none, none, none, false⟩ _ rfl

/-- Evaluation of `clientToMeters` when the layout is ready and the point
(already expressed relative to the container) lies inside the rendered
image region, so the clamps are the identity. -/
theorem clientToMeters_eval (g : Geom) (cx cy : ℚ)
    (hw : 0 < g.width) (hh : 0 < g.height) (hsx : 0 < g.sx) (hsy : 0 < g.sy)
    (hm : 0 < g.meterToPixel)
    (hx1 : g.left ≤ cx - g.rectLeft) (hx2 : cx - g.rectLeft ≤ g.left + g.width)
    (hy1 : g.top ≤ cy - g.rectTop) (hy2 : cy - g.rectTop ≤ g.top + g.height) :
    clientToMeters g cx cy
      = some (round2 ((cx - g.rectLeft - g.left) / (g.sx * g.meterToPixel)),
              round2 ((g.height - (cy - g.rectTop - g.top))
                / (g.sy * g.meterToPixel))) := by
  unfold clientToMeters
  dsimp only
  rw [if_neg (by push_neg; exact ⟨hw, hh⟩), if_neg (by push_neg; exact ⟨hsx, hsy⟩),
      if_neg (not_le.mpr hm), if_neg (not_lt.mpr hx1), if_neg (not_lt.mpr hx2),
      if_neg (not_lt.mpr hy1), if_neg (not_lt.mpr hy2)]

/-- C3 (counterexample): with rendered size 300×300, no offsets, unit image
scale and 300 px/m, the container point (1, 5) is inside the rendered
bounds, yet screen→world→screen returns (0, 6): both coordinates are off
by a full pixel, far beyond the claimed 0.01 tolerance — the 2-decimal
rounding in meters costs up to 0.005·scale·meterToPixel = 1.5 px here. -/
theorem roundTrip_not_within_tolerance :
    roundTrip ⟨0, 0, 0, 0, 300, 300, 1, 1, 300⟩ 1 5 = some (0, 6) ∧
    ¬ (|(0 : ℚ) - 1| ≤ 1 / 100 ∧ |(6 : ℚ) - 5| ≤ 1 / 100) := by
  have hr1 : round2 ((1 : ℚ) / 300) = 0 := by
    rw [round2_eval ((1 : ℚ) / 300) 0 (by norm_num) (by norm_num)]
    norm_num
  have hr2 : round2 ((295 : ℚ) / 300) = 49 / 50 := by
    rw [round2_eval ((295 : ℚ) / 300) 98 (by norm_num) (by norm_num)]
    norm_num
  constructor
  · unfold roundTrip
    rw [clientToMeters_eval ⟨0, 0, 0, 0, 300, 300, 1, 1, 300⟩ _ _
      (by norm_num) (by norm_num) (by norm_num) (by norm_num) (by norm_num)
      (by norm_num) (by norm_num) (by norm_num) (by norm_num)]
    rw [show ((0 : ℚ) + 1 - 0 - 0) / (1 * 300) = (1 : ℚ) / 300 by norm_num]
    rw [show ((300 : ℚ) - (0 + 5 - 0 - 0)) / (1 * 300) = (295 : ℚ) / 300 by norm_num]
    rw [hr1, hr2]
    unfold anchorPx anchorPy
    norm_num
  · intro hcl
    have := hcl.1
    norm_num at this

/-- C3 (amended): for every point inside the rendered image bounds,
screen→world (`clientToMeters`, clamped and rounded to 2 decimals in
meters) followed by world→screen (the anchor render mapping) reproduces the
point within 0.005·sx·meterToPixel horizontally and 0.005·sy·meterToPixel
vertically (half of the 2-decimal world grid, scaled to pixels); the 0.01
claimed by the spec only holds when the scale factors are small enough. -/
theorem roundTrip_close (g : Geom) (rx ry : ℚ)
    (hw : 0 < g.width) (hh : 0 < g.height) (hsx : 0 < g.sx) (hsy : 0 < g.sy)
    (hm : 0 < g.meterToPixel)
    (hx1 : g.left ≤ rx) (hx2 : rx ≤ g.left + g.width)
    (hy1 : g.top ≤ ry) (hy2 : ry ≤ g.top + g.height) :
    ∃ px py, roundTrip g rx ry = some (px, py) ∧
      |px - rx| ≤ g.sx * g.meterToPixel / 200 ∧
      |py - ry| ≤ g.sy * g.meterToPixel / 200 := by
  have hsm : (0 : ℚ) < g.sx * g.meterToPixel := mul_pos hsx hm
  have hsm2 : (0 : ℚ) < g.sy * g.meterToPixel := mul_pos hsy hm
  have e1 : g.rectLeft + rx - g.rectLeft = rx := by ring
  have e2 : g.rectTop + ry - g.rectTop = ry := by ring
  have hcm := clientToMeters_eval g (g.rectLeft + rx) (g.rectTop + ry)
    hw hh hsx hsy hm (by rw [e1]; exact hx1) (by rw [e1]; exact hx2)
    (by rw [e2]; exact hy1) (by rw [e2]; exact hy2)
  rw [e1, e2] at hcm
  refine ⟨anchorPx g (round2 ((rx - g.left) / (g.sx * g.meterToPixel))),
    anchorPy g (round2 ((g.height - (ry - g.top)) / (g.sy * g.meterToPixel))),
    ?_, ?_, ?_⟩
  · unfold roundTrip
    rw [hcm]
    rfl
  · have hmx : (rx - g.left) / (g.sx * g.meterToPixel) * (g.sx * g.meterToPixel)
        = rx - g.left := div_mul_cancel₀ _ (ne_of_gt hsm)
    have hdiff : anchorPx g (round2 ((rx - g.left) / (g.sx * g.meterToPixel))) - rx
        = (round2 ((rx - g.left) / (g.sx * g.meterToPixel))
            - (rx - g.left) / (g.sx * g.meterToPixel)) * (g.sx * g.meterToPixel) := by
      rw [sub_mul, hmx]
      unfold anchorPx
      ring
    rw [hdiff, abs_mul, abs_of_pos hsm]
    calc |round2 ((rx - g.left) / (g.sx * g.meterToPixel))
            - (rx - g.left) / (g.sx * g.meterToPixel)| * (g.sx * g.meterToPixel)
        ≤ 1 / 200 * (g.sx * g.meterToPixel) :=
          mul_le_mul_of_nonneg_right (abs_round2_sub_le _) hsm.le
      _ = g.sx * g.meterToPixel / 200 := by ring
  · have hmy : (g.height - (ry - g.top)) / (g.sy * g.meterToPixel)
        * (g.sy * g.meterToPixel) = g.height - (ry - g.top) :=
      div_mul_cancel₀ _ (ne_of_gt hsm2)
    have hdiff : anchorPy g (round2 ((g.height - (ry - g.top))
          / (g.sy * g.meterToPixel))) - ry
        = ((g.height - (ry - g.top)) / (g.sy * g.meterToPixel)
            - round2 ((g.height - (ry - g.top)) / (g.sy * g.meterToPixel)))
          * (g.sy * g.meterToPixel) := by
      rw [sub_mul, hmy]
      unfold anchorPy
      ring
    rw [hdiff, abs_mul, abs_of_pos hsm2, abs_sub_comm]
    calc |round2 ((g.height - (ry - g.top)) / (g.sy * g.meterToPixel))
            - (g.height - (ry - g.top)) / (g.sy * g.meterToPixel)|
          * (g.sy * g.meterToPixel)
        ≤ 1 / 200 * (g.sy * g.meterToPixel) :=
          mul_le_mul_of_nonneg_right (abs_round2_sub_le _) hsm2.le
      _ = g.sy * g.meterToPixel / 200 := by ring

/-- C3 witness for `roundTrip_close`: a concrete in-bounds point. -/
theorem roundTrip_close_witness :
    ∃ px py, roundTrip ⟨0, 0, 10, 20, 300, 200, 1, 1, 300⟩ 50 60 = some (px, py) ∧
      |px - 50| ≤ (1 : ℚ) * 300 / 200 ∧ |py - 60| ≤ (1 : ℚ) * 300 / 200 :=
  roundTrip_close ⟨0, 0, 10, 20, 300, 200, 1, 1, 300⟩ 50 60 (by norm_num)
    (by norm_num) (by norm_num) (by norm_num) (by norm_num) (by norm_num)
    (by norm_num) (by norm_num) (by norm_num)
